import Mathlib

/-!
Shallow embedding of the two AI rate-throttle classes of
src/backend/core/api/utils.py (AIDocumentRateThrottle and
AIUserRateThrottle), together with proofs about their behaviour.

Modelling choices:
- Timestamps (Python time.time(), real-valued seconds since the epoch)
  are modelled as rationals.
- The Django cache is modelled as an association list from string keys
  to entries; cache.get with default [] is lookup, cache.set prepends,
  so lookup sees the last write (last-write-wins per key).
- Python exceptions that the throttle code can raise are modelled by an
  error type carried in Except: KeyError for the missing "pk" view
  kwarg, and TypeError for the format specifier ":s" applied to None
  when no client IP can be determined.
-/

/-- A stored cache entry: the value written by cache.set together with
the timeout (expiry in seconds) passed along with it. -/
structure CacheEntry where
  value : List ℚ
  timeout : ℕ
deriving DecidableEq, Repr

/-- The Django cache, restricted to the keys this code touches:
an association list from string keys to entries; the most recent
write for a key is found first. -/
abbrev Cache := List (String × CacheEntry)

/-- cache.get(key, []) — the stored value, or the empty history when the
key is absent. -/
def cacheGet (c : Cache) (key : String) : List ℚ :=
  match c.lookup key with
  | some e => e.value
  | none => []

/-- cache.set(key, value, timeout) — record the new value for the key. -/
def cacheSet (c : Cache) (key : String) (value : List ℚ) (timeout : ℕ) : Cache :=
  (key, ⟨value, timeout⟩) :: c

/-- The rate configuration dictionary with keys "minute", "hour", "day"
(settings.AI_DOCUMENT_RATE_THROTTLE_RATES or
settings.AI_USER_RATE_THROTTLE_RATES). -/
structure Rates where
  minute : ℕ
  hour : ℕ
  day : ℕ
deriving DecidableEq, Repr

/-- The per-instance mutable attributes set in the constructors of both
throttle classes and overwritten by allow_request: the cache key and the
three scratch counts read back by wait(). -/
structure ThrottleState where
  cache_key : Option String
  recent_requests_minute : ℕ
  recent_requests_hour : ℕ
  recent_requests_day : ℕ
deriving DecidableEq, Repr

/-- The attribute values set by the constructors of both classes. -/
def initState : ThrottleState := ⟨none, 0, 0, 0⟩

/-- Exceptions this code can raise, carried through Except. -/
inductive PyError where
  /-- KeyError: view.kwargs has no "pk" entry. -/
  | keyError
  /-- TypeError: the f-string conversion "{ip_addr:s}" applied to None. -/
  | typeError
deriving DecidableEq, Repr

/-- Result of one allow_request call: the returned boolean, the
instance attributes after the call, and the cache after the call. -/
structure AllowResult where
  allowed : Bool
  state : ThrottleState
  cache : Cache
deriving DecidableEq, Repr

instance {ε α : Type} [DecidableEq ε] [DecidableEq α] :
    DecidableEq (Except ε α) := fun a b =>
  match a, b with
  | .ok x, .ok y =>
      if h : x = y then .isTrue (by rw [h]) else .isFalse (by simp [h])
  | .error x, .error y =>
      if h : x = y then .isTrue (by rw [h]) else .isFalse (by simp [h])
  | .ok _, .error _ => .isFalse (by simp)
  | .error _, .ok _ => .isFalse (by simp)

/-- The cache left behind by a call that did not raise; an erroring call
is never inspected through this projection in the theorems below. -/
def resultCache (r : Except PyError AllowResult) : Cache :=
  match r with
  | .ok a => a.cache
  | .error _ => []

namespace AIDocumentRateThrottle

/-- get_cache_key of AIDocumentRateThrottle: reads view.kwargs["pk"]
(raising KeyError when absent, which the spec calls ConfigurationError)
and formats "document_{document_id}_throttle_ai". -/
def get_cache_key (kwargs_pk : Option String) : Except PyError String :=
  match kwargs_pk with
  | some document_id => .ok ("document_" ++ document_id ++ "_throttle_ai")
  | none => .error .keyError

/-- The body of AIDocumentRateThrottle.allow_request after the cache key
has been computed: read the history, prune entries older than a day,
store the three window counts on the instance, check the three limits in
the order minute, hour, day, and on admission append now and write back
with timeout 86400. -/
def allow_given_key (rates : Rates) (key : String) (c : Cache) (now : ℚ) :
    AllowResult :=
  let history := cacheGet c key
  let history := history.filter (fun req => decide (req > now - 86400))
  let recent_requests_minute :=
    (history.filter (fun req => decide (req > now - 60))).length
  let recent_requests_hour :=
    (history.filter (fun req => decide (req > now - 3600))).length
  let recent_requests_day := history.length
  let st : ThrottleState :=
    ⟨some key, recent_requests_minute, recent_requests_hour,
      recent_requests_day⟩
  if recent_requests_minute ≥ rates.minute then ⟨false, st, c⟩
  else if recent_requests_hour ≥ rates.hour then ⟨false, st, c⟩
  else if recent_requests_day ≥ rates.day then ⟨false, st, c⟩
  else ⟨true, st, cacheSet c key (history ++ [now]) 86400⟩

/-- AIDocumentRateThrottle.allow_request: derive the cache key from the
view kwargs, then run the throttle body. -/
def allow_request (rates : Rates) (kwargs_pk : Option String) (c : Cache)
    (now : ℚ) : Except PyError AllowResult :=
  match get_cache_key kwargs_pk with
  | .ok key => .ok (allow_given_key rates key c now)
  | .error e => .error e

/-- AIDocumentRateThrottle.wait: backoff read from the scratch counts of
the most recent allow_request call, coarsest window first. -/
def wait (rates : Rates) (st : ThrottleState) : Option ℕ :=
  if st.recent_requests_day ≥ rates.day then some 86400
  else if st.recent_requests_hour ≥ rates.hour then some 3600
  else if st.recent_requests_minute ≥ rates.minute then some 60
  else none

end AIDocumentRateThrottle

/-- The request data AIUserRateThrottle reads: request.user (some id
when authenticated, none for anonymous) and the two request.META entries
consulted by get_ident, each possibly absent. -/
structure Request where
  user : Option String
  meta_http_x_forwarded_for : Option String
  meta_remote_addr : Option String
deriving DecidableEq, Repr

namespace AIUserRateThrottle

/-- AIUserRateThrottle.get_ident: the first entry of the
X-Forwarded-For header when that header is present and non-empty,
otherwise REMOTE_ADDR (which may be absent, yielding none). -/
def get_ident (req : Request) : Option String :=
  match req.meta_http_x_forwarded_for with
  | some x_forwarded_for =>
      if x_forwarded_for ≠ "" then
        some ((x_forwarded_for.splitOn ",").headD "")
      else req.meta_remote_addr
  | none => req.meta_remote_addr

/-- AIUserRateThrottle.get_cache_key: "user_{id}_throttle_ai" for an
authenticated user, else "anonymous_{ip}_throttle_ai"; when no IP can
be determined the f-string conversion "{ip_addr:s}" is applied to None
and raises TypeError. -/
def get_cache_key (req : Request) : Except PyError String :=
  match req.user with
  | some user_id => .ok ("user_" ++ user_id ++ "_throttle_ai")
  | none =>
      match get_ident req with
      | some ip_addr => .ok ("anonymous_" ++ ip_addr ++ "_throttle_ai")
      | none => .error .typeError

/-- The body of AIUserRateThrottle.allow_request after the cache key has
been computed: record the key on the instance, return True at once on a
falsy key, otherwise read, prune, count, check the three limits and on
admission append now and write back with timeout 86400. -/
def allow_given_key (rates : Rates) (key : String) (st : ThrottleState)
    (c : Cache) (now : ℚ) : AllowResult :=
  let st := { st with cache_key := some key }
  if key = "" then ⟨true, st, c⟩
  else
    let history := cacheGet c key
    let history := history.filter (fun req => decide (req > now - 86400))
    let recent_requests_minute :=
      (history.filter (fun req => decide (req > now - 60))).length
    let recent_requests_hour :=
      (history.filter (fun req => decide (req > now - 3600))).length
    let recent_requests_day := history.length
    let st : ThrottleState :=
      ⟨some key, recent_requests_minute, recent_requests_hour,
        recent_requests_day⟩
    if recent_requests_minute ≥ rates.minute then ⟨false, st, c⟩
    else if recent_requests_hour ≥ rates.hour then ⟨false, st, c⟩
    else if recent_requests_day ≥ rates.day then ⟨false, st, c⟩
    else ⟨true, st, cacheSet c key (history ++ [now]) 86400⟩

/-- AIUserRateThrottle.allow_request: derive the cache key from the
request, then run the throttle body. -/
def allow_request (rates : Rates) (req : Request) (st : ThrottleState)
    (c : Cache) (now : ℚ) : Except PyError AllowResult :=
  match get_cache_key req with
  | .ok key => .ok (allow_given_key rates key st c now)
  | .error e => .error e

/-- AIUserRateThrottle.wait: backoff read from the scratch counts of the
most recent allow_request call, coarsest window first. -/
def wait (rates : Rates) (st : ThrottleState) : Option ℕ :=
  if st.recent_requests_day ≥ rates.day then some 86400
  else if st.recent_requests_hour ≥ rates.hour then some 3600
  else if st.recent_requests_minute ≥ rates.minute then some 60
  else none

end AIUserRateThrottle

/-- The pruned history: entries of the stored history for the key that
are newer than a day, exactly as both allow_request bodies compute it. -/
def prunedHistory (c : Cache) (key : String) (now : ℚ) : List ℚ :=
  (cacheGet c key).filter (fun req => decide (req > now - 86400))

/-- Count of history entries within the trailing 60 seconds. -/
def minuteCount (H : List ℚ) (now : ℚ) : ℕ :=
  (H.filter (fun req => decide (req > now - 60))).length

/-- Count of history entries within the trailing 3600 seconds. -/
def hourCount (H : List ℚ) (now : ℚ) : ℕ :=
  (H.filter (fun req => decide (req > now - 3600))).length

lemma length_filter_mono {α : Type} (p q : α → Bool) (l : List α)
    (h : ∀ a ∈ l, p a → q a) :
    (l.filter p).length ≤ (l.filter q).length := by
  rw [← List.countP_eq_length_filter, ← List.countP_eq_length_filter]
  exact List.countP_mono_left h

lemma cacheGet_cacheSet (c : Cache) (key : String) (v : List ℚ) (t : ℕ) :
    cacheGet (cacheSet c key v t) key = v := by
  simp [cacheGet, cacheSet, List.lookup]

/-- Claim C1: whenever the pruned history is strictly below all three
thresholds, AIDocumentRateThrottle.allow_request returns True, appends
now to the pruned history and writes it back with timeout 86400. -/
theorem doc_allow_admits_when_under_all_windows
    (rates : Rates) (pk key : String) (c : Cache) (now : ℚ) (H : List ℚ)
    (hkey : key = "document_" ++ pk ++ "_throttle_ai")
    (hH : H = prunedHistory c key now)
    (hm : minuteCount H now < rates.minute)
    (hh : hourCount H now < rates.hour)
    (hd : H.length < rates.day) :
    AIDocumentRateThrottle.allow_request rates (some pk) c now =
      .ok ⟨true, ⟨some key, minuteCount H now, hourCount H now, H.length⟩,
        cacheSet c key (H ++ [now]) 86400⟩ := by
  subst hkey
  subst hH
  simp only [minuteCount, hourCount, prunedHistory] at hm hh hd
  simp only [AIDocumentRateThrottle.allow_request,
    AIDocumentRateThrottle.get_cache_key,
    AIDocumentRateThrottle.allow_given_key,
    minuteCount, hourCount, prunedHistory]
  rw [if_neg (Nat.not_le.mpr hm), if_neg (Nat.not_le.mpr hh),
    if_neg (Nat.not_le.mpr hd)]

/-- Witness for C1 at a concrete input: empty stored history, rates
1/5/10, document id "d", now = 100. -/
theorem doc_allow_admits_when_under_all_windows_witness :
    AIDocumentRateThrottle.allow_request ⟨1, 5, 10⟩ (some "d") [] 100 =
      .ok ⟨true, ⟨some "document_d_throttle_ai", 0, 0, 0⟩,
        cacheSet [] "document_d_throttle_ai" ([] ++ [100]) 86400⟩ :=
  doc_allow_admits_when_under_all_windows ⟨1, 5, 10⟩ "d"
    "document_d_throttle_ai" [] 100 [] rfl (by decide) (by decide)
    (by decide) (by decide)

/-- Claim C2: if any one of the three windows has reached its threshold,
AIDocumentRateThrottle.allow_request returns False, whatever the other
two counts are. -/
theorem doc_allow_denies_when_any_window_full
    (rates : Rates) (pk key : String) (c : Cache) (now : ℚ) (H : List ℚ)
    (hkey : key = "document_" ++ pk ++ "_throttle_ai")
    (hH : H = prunedHistory c key now)
    (hover : rates.minute ≤ minuteCount H now ∨
      rates.hour ≤ hourCount H now ∨ rates.day ≤ H.length) :
    AIDocumentRateThrottle.allow_request rates (some pk) c now =
      .ok ⟨false, ⟨some key, minuteCount H now, hourCount H now, H.length⟩,
        c⟩ := by
  subst hkey
  subst hH
  simp only [minuteCount, hourCount, prunedHistory] at hover
  simp only [AIDocumentRateThrottle.allow_request,
    AIDocumentRateThrottle.get_cache_key,
    AIDocumentRateThrottle.allow_given_key,
    minuteCount, hourCount, prunedHistory]
  split_ifs with h1 h2 h3
  · rfl
  · rfl
  · rfl
  · exact absurd hover (by push_neg; exact ⟨Nat.not_le.mp h1,
      Nat.not_le.mp h2, Nat.not_le.mp h3⟩ : ¬_)

/-- Witness for C2: a single fresh entry in the history together with a
minute threshold of 1 makes the call deny even though the hour and day
windows are far from full. -/
theorem doc_allow_denies_when_any_window_full_witness :
    AIDocumentRateThrottle.allow_request ⟨1, 5, 10⟩ (some "d")
      [("document_d_throttle_ai", ⟨[99], 86400⟩)] 100 =
      .ok ⟨false, ⟨some "document_d_throttle_ai", 1, 1, 1⟩,
        [("document_d_throttle_ai", ⟨[99], 86400⟩)]⟩ := by
  have h := doc_allow_denies_when_any_window_full ⟨1, 5, 10⟩ "d"
    "document_d_throttle_ai" [("document_d_throttle_ai", ⟨[99], 86400⟩)]
    100 [99] rfl
    (by norm_num [prunedHistory, cacheGet, List.lookup, List.filter_cons])
    (Or.inl (by norm_num [minuteCount, List.filter_cons]))
  rw [h]
  norm_num [minuteCount, hourCount, List.filter_cons]

/-- Claim C3: wait() reads the scratch counts left by the most recent
allow_request call and returns 86400 when day-limited, else 3600 when
hour-limited, else 60 when minute-limited, else none; in particular a
caller over both the day and the minute limit is told 86400. -/
theorem doc_wait_escalates_coarsest_window_first
    (rates : Rates) (pk : String) (c : Cache) (now : ℚ) (res : AllowResult)
    (hres : AIDocumentRateThrottle.allow_request rates (some pk) c now =
      .ok res) :
    (AIDocumentRateThrottle.wait rates res.state =
      if rates.day ≤ res.state.recent_requests_day then some 86400
      else if rates.hour ≤ res.state.recent_requests_hour then some 3600
      else if rates.minute ≤ res.state.recent_requests_minute then some 60
      else none)
    ∧ (rates.day ≤ res.state.recent_requests_day →
        rates.minute ≤ res.state.recent_requests_minute →
        AIDocumentRateThrottle.wait rates res.state = some 86400) := by
  refine ⟨rfl, fun h1 _ => ?_⟩
  simp [AIDocumentRateThrottle.wait, h1]

/-- Witness for C3: scratch counts 2/2/2 under rates 1/100/2, set by a
call over both the day and the minute limit, give wait() = 86400. -/
theorem doc_wait_escalates_coarsest_window_first_witness :
    AIDocumentRateThrottle.wait ⟨1, 100, 2⟩
      ⟨some "document_d_throttle_ai", 2, 2, 2⟩ = some 86400 := by
  have hres : AIDocumentRateThrottle.allow_request ⟨1, 100, 2⟩ (some "d")
      [("document_d_throttle_ai", ⟨[99999, 99998], 86400⟩)] 100000 =
      .ok ⟨false, ⟨some "document_d_throttle_ai", 2, 2, 2⟩,
        [("document_d_throttle_ai", ⟨[99999, 99998], 86400⟩)]⟩ := by
    norm_num [AIDocumentRateThrottle.allow_request,
      AIDocumentRateThrottle.get_cache_key,
      AIDocumentRateThrottle.allow_given_key, cacheGet, List.lookup,
      List.filter_cons,
      show ("document_" ++ "d" ++ "_throttle_ai") = "document_d_throttle_ai"
        from rfl]
  exact (doc_wait_escalates_coarsest_window_first ⟨1, 100, 2⟩ "d"
    [("document_d_throttle_ai", ⟨[99999, 99998], 86400⟩)] 100000
    ⟨false, ⟨some "document_d_throttle_ai", 2, 2, 2⟩,
      [("document_d_throttle_ai", ⟨[99999, 99998], 86400⟩)]⟩ hres).2
    (by decide) (by decide)

/-- Claim C4: a denied AIDocumentRateThrottle.allow_request call leaves
the cache exactly as it was, and running the same call again on the
resulting cache gives the same denial. -/
theorem doc_denied_call_leaves_store_unchanged
    (rates : Rates) (pk : String) (c : Cache) (now : ℚ) (res : AllowResult)
    (hres : AIDocumentRateThrottle.allow_request rates (some pk) c now =
      .ok res)
    (hdeny : res.allowed = false) :
    res.cache = c ∧
    AIDocumentRateThrottle.allow_request rates (some pk) res.cache now =
      .ok res := by
  have hres' : AIDocumentRateThrottle.allow_given_key rates
      ("document_" ++ pk ++ "_throttle_ai") c now = res := by
    simpa [AIDocumentRateThrottle.allow_request,
      AIDocumentRateThrottle.get_cache_key] using hres
  subst hres'
  have hcache : (AIDocumentRateThrottle.allow_given_key rates
      ("document_" ++ pk ++ "_throttle_ai") c now).cache = c := by
    simp only [AIDocumentRateThrottle.allow_given_key] at hdeny ⊢
    split_ifs at hdeny ⊢ <;> simp_all
  refine ⟨hcache, ?_⟩
  rw [hcache]
  simp [AIDocumentRateThrottle.allow_request,
    AIDocumentRateThrottle.get_cache_key]

/-- Witness for C4: with a minute threshold of 1 and one fresh entry the
call denies, the cache is returned unchanged, and a repeat call gives
the same result. -/
theorem doc_denied_call_leaves_store_unchanged_witness :
    (⟨false, ⟨some "document_d_throttle_ai", 1, 1, 1⟩,
      [("document_d_throttle_ai", ⟨[99], 86400⟩)]⟩ : AllowResult).cache =
      [("document_d_throttle_ai", ⟨[99], 86400⟩)] ∧
    AIDocumentRateThrottle.allow_request ⟨1, 5, 10⟩ (some "d")
      (⟨false, ⟨some "document_d_throttle_ai", 1, 1, 1⟩,
        [("document_d_throttle_ai", ⟨[99], 86400⟩)]⟩ : AllowResult).cache
      100 =
      .ok ⟨false, ⟨some "document_d_throttle_ai", 1, 1, 1⟩,
        [("document_d_throttle_ai", ⟨[99], 86400⟩)]⟩ := by
  have hres : AIDocumentRateThrottle.allow_request ⟨1, 5, 10⟩ (some "d")
      [("document_d_throttle_ai", ⟨[99], 86400⟩)] 100 =
      .ok ⟨false, ⟨some "document_d_throttle_ai", 1, 1, 1⟩,
        [("document_d_throttle_ai", ⟨[99], 86400⟩)]⟩ := by
    norm_num [AIDocumentRateThrottle.allow_request,
      AIDocumentRateThrottle.get_cache_key,
      AIDocumentRateThrottle.allow_given_key, cacheGet, List.lookup,
      List.filter_cons,
      show ("document_" ++ "d" ++ "_throttle_ai") = "document_d_throttle_ai"
        from rfl]
  exact doc_denied_call_leaves_store_unchanged ⟨1, 5, 10⟩ "d"
    [("document_d_throttle_ai", ⟨[99], 86400⟩)] 100
    ⟨false, ⟨some "document_d_throttle_ai", 1, 1, 1⟩,
      [("document_d_throttle_ai", ⟨[99], 86400⟩)]⟩ hres rfl

/-- Counterexample to claim C5 as stated: a denied call does not write
back, so a stored timestamp older than a day survives the call. With
thresholds 0/0/0 the call at now = 100000 denies and the stale
timestamp 1 is still in the stored history, violating "every timestamp
older than 86400 seconds relative to now is absent from the history
associated with the key" after the call. -/
theorem doc_stale_entry_survives_denied_call :
    AIDocumentRateThrottle.allow_request ⟨0, 0, 0⟩ (some "d")
      [("document_d_throttle_ai", ⟨[1], 86400⟩)] 100000 =
      .ok ⟨false, ⟨some "document_d_throttle_ai", 0, 0, 0⟩,
        [("document_d_throttle_ai", ⟨[1], 86400⟩)]⟩
    ∧ ¬ (∀ t ∈ cacheGet [("document_d_throttle_ai", ⟨[1], 86400⟩)]
          "document_d_throttle_ai", t > (100000 : ℚ) - 86400) := by
  constructor
  · norm_num [AIDocumentRateThrottle.allow_request,
      AIDocumentRateThrottle.get_cache_key,
      AIDocumentRateThrottle.allow_given_key, cacheGet, List.lookup,
      List.filter_cons,
      show ("document_" ++ "d" ++ "_throttle_ai") = "document_d_throttle_ai"
        from rfl]
  · intro hall
    have h1 := hall 1 (by norm_num [cacheGet, List.lookup])
    norm_num at h1

/-- Claim C5 amended: the pruned history used for counting contains no
timestamp older than a day; after an admitting call the stored history
under the key is exactly the pruned history plus the appended now, so
it contains no timestamp older than a day; after a denying call the
cache is unchanged (and may retain stale timestamps). -/
theorem doc_history_pruned_on_admission
    (rates : Rates) (pk key : String) (c : Cache) (now : ℚ)
    (res : AllowResult)
    (hkey : key = "document_" ++ pk ++ "_throttle_ai")
    (hres : AIDocumentRateThrottle.allow_request rates (some pk) c now =
      .ok res) :
    (∀ t ∈ prunedHistory c key now, t > now - 86400)
    ∧ (res.allowed = true →
        cacheGet res.cache key = prunedHistory c key now ++ [now]
        ∧ ∀ t ∈ cacheGet res.cache key, t > now - 86400)
    ∧ (res.allowed = false → res.cache = c) := by
  subst hkey
  have hres' : AIDocumentRateThrottle.allow_given_key rates
      ("document_" ++ pk ++ "_throttle_ai") c now = res := by
    simpa [AIDocumentRateThrottle.allow_request,
      AIDocumentRateThrottle.get_cache_key] using hres
  subst hres'
  have hH86 : ∀ t ∈ prunedHistory c ("document_" ++ pk ++ "_throttle_ai")
      now, t > now - 86400 := by
    intro t ht
    simp only [prunedHistory, List.mem_filter, decide_eq_true_eq] at ht
    exact ht.2
  refine ⟨hH86, ?_, ?_⟩ <;>
    simp only [AIDocumentRateThrottle.allow_given_key] <;>
    split_ifs with h1 h2 h3 <;> intro hb <;> simp_all
  rw [cacheGet_cacheSet]
  refine ⟨rfl, fun t ht => ?_⟩
  rcases List.mem_append.mp ht with h | h
  · exact hH86 t (by simpa [prunedHistory] using h)
  · have : t = now := by simpa using h
    subst this
    linarith

/-- Witness for C5 amended: an admitting call on a history that holds
one stale and one fresh entry writes back exactly the fresh entry plus
now, and a companion denial leaves the cache unchanged. -/
theorem doc_history_pruned_on_admission_witness :
    (∀ t ∈ prunedHistory
        [("document_d_throttle_ai", ⟨[1, 99999], 86400⟩)]
        "document_d_throttle_ai" (100000 : ℚ), t > (100000 : ℚ) - 86400)
    ∧ ((true : Bool) = true →
        cacheGet (cacheSet
            [("document_d_throttle_ai", ⟨[1, 99999], 86400⟩)]
            "document_d_throttle_ai" ([99999] ++ [100000]) 86400)
          "document_d_throttle_ai" =
          prunedHistory [("document_d_throttle_ai", ⟨[1, 99999], 86400⟩)]
            "document_d_throttle_ai" (100000 : ℚ) ++ [100000]
        ∧ ∀ t ∈ cacheGet (cacheSet
            [("document_d_throttle_ai", ⟨[1, 99999], 86400⟩)]
            "document_d_throttle_ai" ([99999] ++ [100000]) 86400)
          "document_d_throttle_ai", t > (100000 : ℚ) - 86400)
    ∧ ((true : Bool) = false →
        (cacheSet [("document_d_throttle_ai", ⟨[1, 99999], 86400⟩)]
          "document_d_throttle_ai" ([99999] ++ [100000]) 86400) =
        [("document_d_throttle_ai", ⟨[1, 99999], 86400⟩)]) := by
  have hres : AIDocumentRateThrottle.allow_request ⟨5, 5, 5⟩ (some "d")
      [("document_d_throttle_ai", ⟨[1, 99999], 86400⟩)] 100000 =
      .ok ⟨true, ⟨some "document_d_throttle_ai", 1, 1, 1⟩,
        cacheSet [("document_d_throttle_ai", ⟨[1, 99999], 86400⟩)]
          "document_d_throttle_ai" ([99999] ++ [100000]) 86400⟩ := by
    norm_num [AIDocumentRateThrottle.allow_request,
      AIDocumentRateThrottle.get_cache_key,
      AIDocumentRateThrottle.allow_given_key, cacheGet, cacheSet,
      List.lookup, List.filter_cons,
      show ("document_" ++ "d" ++ "_throttle_ai") = "document_d_throttle_ai"
        from rfl]
  exact doc_history_pruned_on_admission ⟨5, 5, 5⟩ "d"
    "document_d_throttle_ai"
    [("document_d_throttle_ai", ⟨[1, 99999], 86400⟩)] 100000
    ⟨true, ⟨some "document_d_throttle_ai", 1, 1, 1⟩,
      cacheSet [("document_d_throttle_ai", ⟨[1, 99999], 86400⟩)]
        "document_d_throttle_ai" ([99999] ++ [100000]) 86400⟩
    rfl hres

/-- Claim C6: with rates 1/5/10 and an empty stored history, a first
AIUserRateThrottle.allow_request call admits and leaves exactly one
stored entry; a second call within the same minute denies, and wait()
on the resulting counts returns 60. -/
theorem user_scenario_first_admits_second_denies
    (now1 now2 : ℚ) (h1 : now1 ≤ now2) (h2 : now2 < now1 + 60) :
    AIUserRateThrottle.allow_request ⟨1, 5, 10⟩ ⟨some "u", none, none⟩
      initState [] now1 =
      .ok ⟨true, ⟨some "user_u_throttle_ai", 0, 0, 0⟩,
        [("user_u_throttle_ai", ⟨[now1], 86400⟩)]⟩
    ∧ AIUserRateThrottle.allow_request ⟨1, 5, 10⟩ ⟨some "u", none, none⟩
      ⟨some "user_u_throttle_ai", 0, 0, 0⟩
      [("user_u_throttle_ai", ⟨[now1], 86400⟩)] now2 =
      .ok ⟨false, ⟨some "user_u_throttle_ai", 1, 1, 1⟩,
        [("user_u_throttle_ai", ⟨[now1], 86400⟩)]⟩
    ∧ AIUserRateThrottle.wait ⟨1, 5, 10⟩
      ⟨some "user_u_throttle_ai", 1, 1, 1⟩ = some 60 := by
  refine ⟨?_, ?_, ?_⟩
  · norm_num [AIUserRateThrottle.allow_request,
      AIUserRateThrottle.get_cache_key, AIUserRateThrottle.allow_given_key,
      cacheGet, cacheSet, List.lookup,
      show ("user_" ++ "u" ++ "_throttle_ai") = "user_u_throttle_ai"
        from rfl]
    decide
  · have e1 : now2 - 86400 < now1 := by linarith
    have e2 : now2 - 3600 < now1 := by linarith
    have e3 : now2 - 60 < now1 := by linarith
    norm_num [AIUserRateThrottle.allow_request,
      AIUserRateThrottle.get_cache_key, AIUserRateThrottle.allow_given_key,
      cacheGet, cacheSet, List.lookup, List.filter_cons, e1, e2, e3,
      show ("user_" ++ "u" ++ "_throttle_ai") = "user_u_throttle_ai"
        from rfl]
    decide
  · decide

/-- Witness for C6 at now1 = 0, now2 = 30. -/
theorem user_scenario_first_admits_second_denies_witness :
    (0 : ℚ) ≤ 30 ∧ (30 : ℚ) < 0 + 60 ∧
    (AIUserRateThrottle.allow_request ⟨1, 5, 10⟩ ⟨some "u", none, none⟩
      initState [] 0 =
      .ok ⟨true, ⟨some "user_u_throttle_ai", 0, 0, 0⟩,
        [("user_u_throttle_ai", ⟨[0], 86400⟩)]⟩
    ∧ AIUserRateThrottle.allow_request ⟨1, 5, 10⟩ ⟨some "u", none, none⟩
      ⟨some "user_u_throttle_ai", 0, 0, 0⟩
      [("user_u_throttle_ai", ⟨[0], 86400⟩)] 30 =
      .ok ⟨false, ⟨some "user_u_throttle_ai", 1, 1, 1⟩,
        [("user_u_throttle_ai", ⟨[0], 86400⟩)]⟩
    ∧ AIUserRateThrottle.wait ⟨1, 5, 10⟩
      ⟨some "user_u_throttle_ai", 1, 1, 1⟩ = some 60) :=
  ⟨by norm_num, by norm_num,
    user_scenario_first_admits_second_denies 0 30 (by norm_num)
      (by norm_num)⟩

/-- Claim C7, against the code: for an anonymous request with no
X-Forwarded-For header and no REMOTE_ADDR, get_cache_key raises
TypeError (the ":s" format applied to None) instead of returning an
empty key, so allow_request propagates the error rather than returning
True; the fallback branch that would allow on a falsy key is never
reached. -/
theorem user_no_ip_raises_type_error :
    AIUserRateThrottle.get_cache_key ⟨none, none, none⟩ =
      .error .typeError
    ∧ ∀ (rates : Rates) (st : ThrottleState) (c : Cache) (now : ℚ),
        AIUserRateThrottle.allow_request rates ⟨none, none, none⟩ st c
          now = .error .typeError :=
  ⟨rfl, fun _ _ _ _ => rfl⟩

/-- Claim C8: document-scoped key derivation fails when the routing
kwargs carry no document id (the KeyError the spec calls
ConfigurationError), and otherwise produces the fixed-format key built
from the document id. -/
theorem doc_key_requires_document_id :
    AIDocumentRateThrottle.get_cache_key none = .error .keyError
    ∧ ∀ pk : String, AIDocumentRateThrottle.get_cache_key (some pk) =
        .ok ("document_" ++ pk ++ "_throttle_ai") :=
  ⟨rfl, fun _ => rfl⟩

/-- Claim C9: on any non-empty cache key the two classes' throttle
bodies agree exactly (decision, scratch counts and written history), and
their wait functions agree on all states; the classes differ only in
key derivation and configuration source. -/
theorem user_doc_throttle_bodies_agree
    (rates : Rates) (key : String) (st : ThrottleState) (c : Cache)
    (now : ℚ) (hkey : key ≠ "") :
    AIUserRateThrottle.allow_given_key rates key st c now =
      AIDocumentRateThrottle.allow_given_key rates key c now
    ∧ ∀ st2 : ThrottleState, AIUserRateThrottle.wait rates st2 =
        AIDocumentRateThrottle.wait rates st2 := by
  refine ⟨?_, fun st2 => rfl⟩
  simp only [AIUserRateThrottle.allow_given_key,
    AIDocumentRateThrottle.allow_given_key, if_neg hkey]

/-- Witness for C9 at a concrete non-empty key. -/
theorem user_doc_throttle_bodies_agree_witness :
    AIUserRateThrottle.allow_given_key ⟨1, 1, 1⟩ "k" initState [] 0 =
      AIDocumentRateThrottle.allow_given_key ⟨1, 1, 1⟩ "k" [] 0
    ∧ AIUserRateThrottle.wait ⟨1, 1, 1⟩ initState =
      AIDocumentRateThrottle.wait ⟨1, 1, 1⟩ initState := by
  have h := user_doc_throttle_bodies_agree ⟨1, 1, 1⟩ "k" initState [] 0
    (by decide)
  exact ⟨h.1, h.2 initState⟩

lemma counts_chain (H : List ℚ) (now : ℚ) :
    (H.filter (fun req => decide (req > now - 60))).length ≤
      (H.filter (fun req => decide (req > now - 3600))).length
    ∧ (H.filter (fun req => decide (req > now - 3600))).length ≤
      H.length := by
  constructor
  · apply length_filter_mono
    intro a _ ha
    simp only [decide_eq_true_eq] at ha ⊢
    linarith
  · exact List.length_filter_le _ _

lemma user_key_nonempty (req : Request) (key : String)
    (h : AIUserRateThrottle.get_cache_key req = .ok key) : key ≠ "" := by
  intro hkey
  subst hkey
  rcases req with ⟨u, xff, ra⟩
  cases u with
  | some uid =>
      simp only [AIUserRateThrottle.get_cache_key] at h
      have h2 := congrArg String.length (Except.ok.inj h)
      simp [String.length_append] at h2
      exact absurd h2.2 (by decide)
  | none =>
      simp only [AIUserRateThrottle.get_cache_key] at h
      cases hi : AIUserRateThrottle.get_ident ⟨none, xff, ra⟩ with
      | some ip =>
          rw [hi] at h
          have h2 := congrArg String.length (Except.ok.inj h)
          simp [String.length_append] at h2
          exact absurd h2.2 (by decide)
      | none =>
          rw [hi] at h
          simp at h

lemma doc_state_eq (rates : Rates) (key : String) (c : Cache) (now : ℚ) :
    (AIDocumentRateThrottle.allow_given_key rates key c now).state =
      ⟨some key,
        ((cacheGet c key).filter (fun req => decide (req > now - 86400))
          |>.filter (fun req => decide (req > now - 60))).length,
        ((cacheGet c key).filter (fun req => decide (req > now - 86400))
          |>.filter (fun req => decide (req > now - 3600))).length,
        ((cacheGet c key).filter
          (fun req => decide (req > now - 86400))).length⟩ := by
  simp only [AIDocumentRateThrottle.allow_given_key]
  split_ifs <;> rfl

lemma user_state_eq (rates : Rates) (key : String) (st : ThrottleState)
    (c : Cache) (now : ℚ) (hkey : key ≠ "") :
    (AIUserRateThrottle.allow_given_key rates key st c now).state =
      ⟨some key,
        ((cacheGet c key).filter (fun req => decide (req > now - 86400))
          |>.filter (fun req => decide (req > now - 60))).length,
        ((cacheGet c key).filter (fun req => decide (req > now - 86400))
          |>.filter (fun req => decide (req > now - 3600))).length,
        ((cacheGet c key).filter
          (fun req => decide (req > now - 86400))).length⟩ := by
  simp only [AIUserRateThrottle.allow_given_key, if_neg hkey]
  split_ifs <;> rfl

/-- Claim C10: after any allow_request call of either class the scratch
counts are monotone over the nested windows:
minute count at most hour count at most day count. -/
theorem scratch_counts_monotone_after_allow
    (rates : Rates) (pk : String) (c : Cache) (now : ℚ) (req : Request)
    (st : ThrottleState) (resD resU : AllowResult)
    (hD : AIDocumentRateThrottle.allow_request rates (some pk) c now =
      .ok resD)
    (hU : AIUserRateThrottle.allow_request rates req st c now = .ok resU) :
    (resD.state.recent_requests_minute ≤ resD.state.recent_requests_hour
      ∧ resD.state.recent_requests_hour ≤ resD.state.recent_requests_day)
    ∧ (resU.state.recent_requests_minute ≤ resU.state.recent_requests_hour
      ∧ resU.state.recent_requests_hour ≤
        resU.state.recent_requests_day) := by
  constructor
  · have hres : AIDocumentRateThrottle.allow_given_key rates
        ("document_" ++ pk ++ "_throttle_ai") c now = resD := by
      simpa [AIDocumentRateThrottle.allow_request,
        AIDocumentRateThrottle.get_cache_key] using hD
    rw [← hres, doc_state_eq]
    exact counts_chain _ now
  · cases hk : AIUserRateThrottle.get_cache_key req with
    | error e =>
        rw [AIUserRateThrottle.allow_request, hk] at hU
        exact absurd hU (by simp)
    | ok key =>
        have hres : AIUserRateThrottle.allow_given_key rates key st c
            now = resU := by
          rw [AIUserRateThrottle.allow_request, hk] at hU
          exact Except.ok.inj hU
        rw [← hres, user_state_eq rates key st c now
          (user_key_nonempty req key hk)]
        exact counts_chain _ now

/-- Witness for C10: concrete admitting calls of both classes from an
empty cache leave counts 0, 0, 0, which are monotone. -/
theorem scratch_counts_monotone_after_allow_witness :
    ((⟨true, ⟨some "document_d_throttle_ai", 0, 0, 0⟩,
        [("document_d_throttle_ai", ⟨[0], 86400⟩)]⟩ :
      AllowResult).state.recent_requests_minute ≤
      (⟨true, ⟨some "document_d_throttle_ai", 0, 0, 0⟩,
        [("document_d_throttle_ai", ⟨[0], 86400⟩)]⟩ :
      AllowResult).state.recent_requests_hour
    ∧ (⟨true, ⟨some "document_d_throttle_ai", 0, 0, 0⟩,
        [("document_d_throttle_ai", ⟨[0], 86400⟩)]⟩ :
      AllowResult).state.recent_requests_hour ≤
      (⟨true, ⟨some "document_d_throttle_ai", 0, 0, 0⟩,
        [("document_d_throttle_ai", ⟨[0], 86400⟩)]⟩ :
      AllowResult).state.recent_requests_day)
    ∧ ((⟨true, ⟨some "user_u_throttle_ai", 0, 0, 0⟩,
        [("user_u_throttle_ai", ⟨[0], 86400⟩)]⟩ :
      AllowResult).state.recent_requests_minute ≤
      (⟨true, ⟨some "user_u_throttle_ai", 0, 0, 0⟩,
        [("user_u_throttle_ai", ⟨[0], 86400⟩)]⟩ :
      AllowResult).state.recent_requests_hour
    ∧ (⟨true, ⟨some "user_u_throttle_ai", 0, 0, 0⟩,
        [("user_u_throttle_ai", ⟨[0], 86400⟩)]⟩ :
      AllowResult).state.recent_requests_hour ≤
      (⟨true, ⟨some "user_u_throttle_ai", 0, 0, 0⟩,
        [("user_u_throttle_ai", ⟨[0], 86400⟩)]⟩ :
      AllowResult).state.recent_requests_day) := by
  have hD : AIDocumentRateThrottle.allow_request ⟨1, 5, 10⟩ (some "d")
      [] 0 = .ok ⟨true, ⟨some "document_d_throttle_ai", 0, 0, 0⟩,
        [("document_d_throttle_ai", ⟨[0], 86400⟩)]⟩ := by
    norm_num [AIDocumentRateThrottle.allow_request,
      AIDocumentRateThrottle.get_cache_key,
      AIDocumentRateThrottle.allow_given_key, cacheGet, cacheSet,
      List.lookup,
      show ("document_" ++ "d" ++ "_throttle_ai") = "document_d_throttle_ai"
        from rfl]
  have hU : AIUserRateThrottle.allow_request ⟨1, 5, 10⟩
      ⟨some "u", none, none⟩ initState [] 0 =
      .ok ⟨true, ⟨some "user_u_throttle_ai", 0, 0, 0⟩,
        [("user_u_throttle_ai", ⟨[0], 86400⟩)]⟩ := by
    norm_num [AIUserRateThrottle.allow_request,
      AIUserRateThrottle.get_cache_key, AIUserRateThrottle.allow_given_key,
      cacheGet, cacheSet, List.lookup,
      show ("user_" ++ "u" ++ "_throttle_ai") = "user_u_throttle_ai"
        from rfl]
    decide
  exact scratch_counts_monotone_after_allow ⟨1, 5, 10⟩ "d" [] 0
    ⟨some "u", none, none⟩ initState
    ⟨true, ⟨some "document_d_throttle_ai", 0, 0, 0⟩,
      [("document_d_throttle_ai", ⟨[0], 86400⟩)]⟩
    ⟨true, ⟨some "user_u_throttle_ai", 0, 0, 0⟩,
      [("user_u_throttle_ai", ⟨[0], 86400⟩)]⟩ hD hU
